import Mathlib

/-!
Shallow embedding of the evaluation harness of the aluminium-alloys workshop
notebook (`workshop_aluminium_alloys.ipynb`), together with proofs of the
specification's testable properties.

The notebook's functional core consists of:
* `cross_validation(data, x_cols, y_col, random_state, validator)` — selects
  the `x_cols` columns, one-hot encodes them with `pd.get_dummies`, and either
  fits/predicts in-sample or iterates a scikit-learn splitter
  (`LeaveOneOut()`, `KFold(5)`, `KFold(15)`, `KFold(20)`), concatenating the
  per-partition ground truth and predictions in emission order;
* `calc_R2s(data, x_cols, y_col)` — runs `cross_validation` for the five
  registered strategies and maps each display name to its `r2_score`;
* the derived temper columns `temper_truncated`, `temper_c0`, `temper_c1`.

DataFrames are modelled as a rectangular table of mixed numeric/string cells;
machine floats are modelled as exact rationals; Python exceptions
(pandas `KeyError`, scikit-learn `ValueError`) are modelled by an explicit
error type carried in `Except`.
-/

/-- Error kinds raised by the embedded operations.  `columnNotFound` models the
pandas `KeyError` on a missing column label (the spec's `ColumnNotFoundError`);
`invalidFoldCount` models scikit-learn's `ValueError` for a `KFold` with
`k < 2` (raised by the constructor) or `k > n_samples` (raised by `split`),
the spec's `InvalidFoldCountError`; `invalidSampleCount` models scikit-learn's
`ValueError` "Cannot perform LeaveOneOut with n_samples=1"; `unknownValidator`
models the `KeyError` on the `VALIDATORS` dict lookup; `nonNumericTarget`
models scikit-learn rejecting a non-numeric target column at fit time. -/
inductive Err where
  | columnNotFound
  | invalidFoldCount
  | invalidSampleCount
  | unknownValidator
  | nonNumericTarget
deriving DecidableEq, Repr

/-- A cell of the data table: numeric (floats modelled as rationals) or a
string (e.g. the temper code). -/
inductive Value where
  | num (q : ℚ)
  | str (s : String)
deriving DecidableEq, Repr

/-- Is this cell numeric?  Models the pandas dtype test: a column whose cells
are all numeric has a numeric dtype, otherwise dtype `object`. -/
def Value.isNum : Value → Bool
  | .num _ => true
  | .str _ => false

/-- The label used by `pd.get_dummies` for one category value.  String cells
use the string itself; numeric cells are keyed by their exact value. -/
def valueKey : Value → String
  | .str s => s
  | .num q => toString q.num ++ "/" ++ toString q.den

/-- A pandas DataFrame: named columns over a rectangular list of rows, with
the default integer index 0..N-1. -/
structure DataFrame where
  colNames : List String
  rows : List (List Value)
deriving DecidableEq, Repr

/-- Number of rows of the table (`df.shape[0]`). -/
def DataFrame.nRows (df : DataFrame) : ℕ := df.rows.length

/-- The cell at row `r`, column index `j`. -/
def cellAt (df : DataFrame) (r j : ℕ) : Value :=
  (df.rows.getD r []).getD j (Value.num 0)

/-- The values of the column with index `j`, down the rows. -/
def columnVals (df : DataFrame) (j : ℕ) : List Value :=
  df.rows.map (fun r => r.getD j (Value.num 0))

/-- Column selection `data.loc[:, cols]`: pandas raises `KeyError` when any
requested label is absent, otherwise returns a copy with the requested
columns in the requested order. -/
def locCols (df : DataFrame) (cols : List String) : Except Err DataFrame :=
  if cols.all (fun c => df.colNames.contains c) then
    .ok ⟨cols, df.rows.map (fun r => cols.map (fun c => r.getD (df.colNames.indexOf c) (Value.num 0)))⟩
  else .error .columnNotFound

/-- Extraction of a numeric column `data.loc[:, y_col]` as used for the
regression target: pandas raises `KeyError` when the label is absent, and
scikit-learn raises at fit time when the column is not numeric. -/
def numCol (df : DataFrame) (c : String) : Except Err (List ℚ) :=
  if df.colNames.contains c then
    if (df.rows.map (fun r => r.getD (df.colNames.indexOf c) (Value.num 0))).all Value.isNum then
      .ok ((df.rows.map (fun r => r.getD (df.colNames.indexOf c) (Value.num 0))).map
        (fun v => match v with | .num q => q | .str _ => 0))
    else .error .nonNumericTarget
  else .error .columnNotFound

/-- The distinct category labels of a column, in sorted order, as
`pd.get_dummies` produces its indicator columns. -/
def dummyKeys (vals : List Value) : List String :=
  ((vals.map valueKey).foldl (fun acc s => if acc.contains s then acc else acc ++ [s]) []).mergeSort
    (fun a b => decide (a ≤ b))

/-- One-hot encoding `pd.get_dummies(df)`: numeric columns pass through
unchanged; each non-numeric column is replaced by one 0/1 indicator column
per distinct observed value, named `<col>_<value>`. -/
def getDummies (df : DataFrame) : DataFrame :=
  let expand : ℕ × String → List (String × (List Value → Value)) := fun p =>
    if (columnVals df p.1).all Value.isNum then
      [(p.2, fun r => r.getD p.1 (Value.num 0))]
    else
      (dummyKeys (columnVals df p.1)).map (fun k =>
        (p.2 ++ "_" ++ k, fun r => if valueKey (r.getD p.1 (Value.num 0)) = k then Value.num 1 else Value.num 0))
  let specs := df.colNames.enum.flatMap expand
  ⟨specs.map Prod.fst, df.rows.map (fun r => specs.map (fun s => s.2 r))⟩

/-- The numeric matrix underlying an all-numeric DataFrame (the model input
after one-hot encoding). -/
def matrixOf (df : DataFrame) : List (List ℚ) :=
  df.rows.map (fun r => r.map (fun v => match v with | .num q => q | .str _ => 0))

/-- Derived column `temper_truncated`: the notebook computes
`x[:2] if x != "O" else x`. -/
def temper_truncated (x : String) : String :=
  if x ≠ "O" then x.take 2 else x

/-- Derived column `temper_c0`: the notebook computes `x[0]`, which raises
`IndexError` (modelled as `none`) on the empty string. -/
def temper_c0 (x : String) : Option Char :=
  x.toList.head?

/-- Python `int(c)` for a single character: its digit value, or a
`ValueError` (modelled as `none`) when the character is not a digit. -/
def digitVal (c : Char) : Option ℕ :=
  if c.isDigit then some (c.toNat - 48) else none

/-- Derived column `temper_c1`: the notebook computes
`int(x[1]) if len(x) > 1 else 1`. -/
def temper_c1 (x : String) : Option ℕ :=
  if x.length > 1 then digitVal (x.toList.getD 1 ' ') else some 1

/-- scikit-learn `r2_score(y_true, y_pred)` over exact rationals.  With fewer
than two samples the score is undefined (scikit-learn warns and returns NaN,
modelled as `none`; a length mismatch raises, also modelled as `none`).
Otherwise, with `numerator` the residual sum of squares and `denominator` the
total sum of squares: the standard formula `1 - numerator/denominator` when
both are nonzero, `0.0` when only the denominator is zero, and `1.0` when the
numerator is zero. -/
def r2_score (y_true y_pred : List ℚ) : Option ℚ :=
  if y_true.length ≠ y_pred.length then none
  else if y_true.length < 2 then none
  else
    let n : ℚ := y_true.length
    let mean := y_true.sum / n
    let numerator := (List.zipWith (fun a b => (a - b) ^ 2) y_true y_pred).sum
    let denominator := (y_true.map (fun a => (a - mean) ^ 2)).sum
    if denominator ≠ 0 ∧ numerator ≠ 0 then some (1 - numerator / denominator)
    else if numerator ≠ 0 then some 0
    else some 1

/-- The sizes of the `k` folds `KFold` uses for `n` samples: all start at
`n / k`, and the first `n % k` folds get one extra sample. -/
def kfoldSizes (n k : ℕ) : List ℕ :=
  (List.range k).map (fun j => n / k + if j < n % k then 1 else 0)

/-- Contiguous index blocks of the given sizes, starting at `start`: fold `j`
is `indices[current : current + fold_size]` in the scikit-learn generator. -/
def foldsFromSizes : List ℕ → ℕ → List (List ℕ)
  | [], _ => []
  | s :: rest, start => (List.range s).map (fun i => i + start) :: foldsFromSizes rest (start + s)

/-- scikit-learn `KFold(n_splits=k).split(X)` with `n` samples and the default
`shuffle=False`: `ValueError` when `k < 2` (constructor) or `k > n` (split),
otherwise the list of `(train_indices, test_indices)` pairs, the test folds
contiguous and in index order, the train indices the ascending complement. -/
def kfoldSplit (k n : ℕ) : Except Err (List (List ℕ × List ℕ)) :=
  if k < 2 then .error .invalidFoldCount
  else if n < k then .error .invalidFoldCount
  else .ok ((foldsFromSizes (kfoldSizes n k) 0).map
    (fun t => ((List.range n).filter (fun i => !(t.contains i)), t)))

/-- scikit-learn `LeaveOneOut().split(X)` with `n` samples: `ValueError` when
`n ≤ 1`, otherwise pair `i` has test `[i]` and train all other indices in
ascending order. -/
def loocvSplit (n : ℕ) : Except Err (List (List ℕ × List ℕ)) :=
  if n ≤ 1 then .error .invalidSampleCount
  else .ok ((List.range n).map (fun i => ((List.range n).filter (fun j => j != i), [i])))

/-- An abstract regression model standing for `RandomForestRegressor`: given
the random state, the training matrix and training targets, it yields a
per-row predictor.  The notebook's claims do not depend on the numeric
behaviour of the learner, only on how the harness drives it. -/
def Regressor : Type := ℤ → List (List ℚ) → List ℚ → List ℚ → ℚ

/-- The `VALIDATORS` dict of `cross_validation`: maps the validator name to
the splitter; a missing key raises `KeyError`. -/
def lookupValidator (v : String) : Except Err (ℕ → Except Err (List (List ℕ × List ℕ))) :=
  if v = "loocv" then .ok loocvSplit
  else if v = "5foldcv" then .ok (kfoldSplit 5)
  else if v = "15foldcv" then .ok (kfoldSplit 15)
  else if v = "20foldcv" then .ok (kfoldSplit 20)
  else .error .unknownValidator

/-- The notebook's `cross_validation(data, x_cols, y_col, random_state,
validator)`: select the `x_cols` columns (pandas `KeyError` on a missing
label), one-hot encode them; for `"insample"` fit and predict on all rows at
once; otherwise look up the splitter, iterate its `(train, test)` pairs,
append `data.loc[test, y_col]` and the fold's predictions per iteration, and
concatenate both accumulator lists at the end. -/
def cross_validation (R : Regressor) (data : DataFrame) (x_cols : List String)
    (y_col : String) (random_state : ℤ) (validator : String) :
    Except Err (List ℚ × List ℚ) := do
  let sub ← locCols data x_cols
  let model_input := getDummies sub
  if validator = "insample" then do
    let y_true ← numCol data y_col
    let predictor := R random_state (matrixOf model_input) y_true
    pure (y_true, (matrixOf model_input).map predictor)
  else do
    let split ← lookupValidator validator
    let parts ← split model_input.nRows
    let ys ← numCol data y_col
    let X := matrixOf model_input
    let acc := parts.foldl (fun acc p =>
      (acc.1 ++ [p.2.map (fun i => ys.getD i 0)],
       acc.2 ++ [p.2.map (fun i =>
         R random_state (p.1.map (fun j => X.getD j [])) (p.1.map (fun j => ys.getD j 0))
           (X.getD i []))])) ([], [])
    pure (acc.1.flatten, acc.2.flatten)

/-- The `validators` dict of `calc_R2s`: internal name paired with the
display name, in insertion order. -/
def validators_table : List (String × String) :=
  [("insample", "In Sample"), ("loocv", "Leave One Out CV"), ("5foldcv", "5 Fold CV"),
   ("15foldcv", "15 Fold CV"), ("20foldcv", "20 Fold CV")]

/-- The notebook's `calc_R2s(data, x_cols, y_col)`: for each registered
validator in turn, run `cross_validation` (with the default
`random_state=1234`) and record the `r2_score` of its `(y_true, y_pred)`
under the display name. -/
def calc_R2s (R : Regressor) (data : DataFrame) (x_cols : List String) (y_col : String) :
    Except Err (List (String × Option ℚ)) :=
  validators_table.foldlM (fun acc p => do
    let r ← cross_validation R data x_cols y_col 1234 p.1
    pure (acc ++ [(p.2, r2_score r.1 r.2)])) []

/-- The coefficient of determination written exactly as the spec defines it
(reference definition for the refinement proof): one minus the ratio of the
residual sum of squares to the total sum of squares of `y_true`. -/
def R2_standard (y_true y_pred : List ℚ) : ℚ :=
  1 - ((List.zipWith (fun a b => (a - b) ^ 2) y_true y_pred).sum)
      / ((y_true.map (fun a => (a - y_true.sum / y_true.length) ^ 2)).sum)

/-- The state-threading view of the notebook's `cross_validation`: every
operation that touches the caller's DataFrame object (`data.loc` reads,
`pd.get_dummies` on a copy) is threaded through explicitly, returning the
DataFrame object as the call leaves it alongside the Python-level result.
None of the source lines assigns into `data`, so every step passes the
object through. -/
def locColsS (df : DataFrame) (cols : List String) : Except Err DataFrame × DataFrame :=
  (locCols df cols, df)

/-- State-threading view of the target-column read `data.loc[:, y_col]`. -/
def numColS (df : DataFrame) (c : String) : Except Err (List ℚ) × DataFrame :=
  (numCol df c, df)

/-- The notebook's `cross_validation` with the caller's DataFrame threaded
through every operation that reads it, pairing the result with the DataFrame
object as the call leaves it. -/
def cross_validationS (R : Regressor) (data : DataFrame) (x_cols : List String)
    (y_col : String) (random_state : ℤ) (validator : String) :
    Except Err (List ℚ × List ℚ) × DataFrame :=
  match locColsS data x_cols with
  | (.error e, data1) => (.error e, data1)
  | (.ok sub, data1) =>
    let model_input := getDummies sub
    if validator = "insample" then
      match numColS data1 y_col with
      | (.error e, data2) => (.error e, data2)
      | (.ok y_true, data2) =>
        let predictor := R random_state (matrixOf model_input) y_true
        (.ok (y_true, (matrixOf model_input).map predictor), data2)
    else
      match lookupValidator validator with
      | .error e => (.error e, data1)
      | .ok split =>
        match split model_input.nRows with
        | .error e => (.error e, data1)
        | .ok parts =>
          match numColS data1 y_col with
          | (.error e, data2) => (.error e, data2)
          | (.ok ys, data2) =>
            let X := matrixOf model_input
            let acc := parts.foldl (fun acc p =>
              (acc.1 ++ [p.2.map (fun i => ys.getD i 0)],
               acc.2 ++ [p.2.map (fun i =>
                 R random_state (p.1.map (fun j => X.getD j []))
                   (p.1.map (fun j => ys.getD j 0)) (X.getD i []))])) ([], [])
            (.ok (acc.1.flatten, acc.2.flatten), data2)

/-- A concrete regressor for the witnesses: always predicts 0.  (The claims
hold for every regressor; the notebook instantiates a RandomForest.) -/
def zeroRegressor : Regressor := fun _ _ _ _ => 0

/-- A concrete three-row table (numeric feature "x", numeric target "y"). -/
def dfW3 : DataFrame :=
  ⟨["x", "y"], [[Value.num 10, Value.num 0], [Value.num 11, Value.num 1], [Value.num 12, Value.num 2]]⟩

/-- The "x" column selection of `dfW3`. -/
def subW3 : DataFrame := ⟨["x"], [[Value.num 10], [Value.num 11], [Value.num 12]]⟩

/-- The LeaveOneOut partitions of three rows. -/
def partsW3 : List (List ℕ × List ℕ) := [([1, 2], [0]), ([0, 2], [1]), ([0, 1], [2])]

/-- The target column of `dfW3`. -/
def ysW3 : List ℚ := [0, 1, 2]

/-- A concrete twenty-row table (numeric feature "x", numeric target "y"),
large enough for every registered strategy including 20-fold CV. -/
def dfW : DataFrame :=
  ⟨["x", "y"], (List.range 20).map (fun i => [Value.num i, Value.num i])⟩

/-- The target column of `dfW`. -/
def ysW : List ℚ := (List.range 20).map (fun i => (i : ℚ))

/-- Twenty zero predictions, what `zeroRegressor` produces on `dfW`. -/
def zerosW : List ℚ := (List.range 20).map (fun _ => 0)


/-! Helper lemmas about the fold construction. -/

/-- Splitting indices into blocks of the given sizes yields one block per size. -/
theorem foldsFromSizes_length (sizes : List ℕ) (start : ℕ) :
    (foldsFromSizes sizes start).length = sizes.length := by
  induction sizes generalizing start with
  | nil => simp [foldsFromSizes]
  | cons s rest ih => simp [foldsFromSizes, ih]

/-- Concatenating contiguous blocks of the given sizes gives the shifted range. -/
theorem foldsFromSizes_flatten (sizes : List ℕ) (start : ℕ) :
    (foldsFromSizes sizes start).flatten = (List.range sizes.sum).map (fun i => i + start) := by
  induction sizes generalizing start with
  | nil => simp [foldsFromSizes]
  | cons s rest ih =>
    simp only [foldsFromSizes, List.flatten_cons, ih, List.sum_cons, List.range_add,
      List.map_append, List.map_map]
    refine congrArg (_ ++ ·) (List.map_congr_left fun a ha => ?_)
    simp [Function.comp]
    omega

/-- Sum of `base` plus an indicator of `j < m` over `j < k`, when every index
carries the indicator. -/
theorem sum_base_indicator_ge (k m base : ℕ) :
    k ≤ m → ((List.range k).map (fun j => base + if j < m then 1 else 0)).sum = k * (base + 1) := by
  induction k with
  | zero => intro h; simp
  | succ k ih =>
    intro h
    rw [List.range_succ, List.map_append, List.sum_append, ih (by omega)]
    simp only [List.map_cons, List.map_nil, List.sum_cons, List.sum_nil]
    rw [if_pos (by omega)]
    ring

/-- Sum of `base` plus an indicator of `j < m` over `j < k`, when `m ≤ k`. -/
theorem sum_base_indicator_le (k m base : ℕ) :
    m ≤ k → ((List.range k).map (fun j => base + if j < m then 1 else 0)).sum = k * base + m := by
  induction k with
  | zero => intro h; interval_cases m; simp
  | succ k ih =>
    intro h
    rw [List.range_succ, List.map_append, List.sum_append]
    simp only [List.map_cons, List.map_nil, List.sum_cons, List.sum_nil]
    by_cases hm : m ≤ k
    · rw [ih hm, if_neg (by omega)]
      ring
    · have hm1 : m = k + 1 := by omega
      subst hm1
      rw [sum_base_indicator_ge k (k + 1) base (by omega), if_pos (by omega)]
      ring

/-- The `KFold` fold sizes add up to the number of samples. -/
theorem kfoldSizes_sum (n k : ℕ) (hk : 0 < k) : (kfoldSizes n k).sum = n := by
  unfold kfoldSizes
  rw [sum_base_indicator_le k (n % k) (n / k) (le_of_lt (Nat.mod_lt n hk))]
  exact Nat.div_add_mod n k

/-- Flattening the singleton lists of a list gives the list back. -/
theorem flatten_map_singleton {α : Type} (l : List α) :
    (l.map (fun a => [a])).flatten = l := by
  induction l with
  | nil => rfl
  | cons a t ih => simp [ih]

/-- C1: for every N ≥ 2 and every k with 2 ≤ k ≤ N, `KFold(k)` (as driven by
`cross_validation`'s splitters) produces exactly k (train, test) partitions;
the test folds, concatenated in emission order, are exactly the indices
0..N-1 in index order (contiguous, not shuffled), hence pairwise disjoint
with union exactly {0..N-1}. -/
theorem kfold_partitions (N k : ℕ) (hk2 : 2 ≤ k) (hkN : k ≤ N) :
    ∃ parts, kfoldSplit k N = Except.ok parts ∧
      parts.length = k ∧
      (parts.map Prod.snd).flatten = List.range N ∧
      (parts.map Prod.snd).Pairwise List.Disjoint ∧
      ∀ i, (∃ p ∈ parts, i ∈ p.2) ↔ i < N := by
  have hk0 : 0 < k := by omega
  have hsum : (kfoldSizes N k).sum = N := kfoldSizes_sum N k hk0
  have hok : kfoldSplit k N = Except.ok ((foldsFromSizes (kfoldSizes N k) 0).map
      (fun t => ((List.range N).filter (fun i => !(t.contains i)), t))) := by
    simp [kfoldSplit, Nat.not_lt.mpr hk2, Nat.not_lt.mpr hkN]
  have hsnd : ((foldsFromSizes (kfoldSizes N k) 0).map
      (fun t => ((List.range N).filter (fun i => !(t.contains i)), t))).map Prod.snd
      = foldsFromSizes (kfoldSizes N k) 0 := by
    rw [List.map_map]
    simp [Function.comp_def]
  have hflat : (foldsFromSizes (kfoldSizes N k) 0).flatten = List.range N := by
    rw [foldsFromSizes_flatten, hsum]
    simp
  refine ⟨_, hok, ?_, ?_, ?_, ?_⟩
  · rw [List.length_map, foldsFromSizes_length]
    simp [kfoldSizes]
  · rw [hsnd]
    exact hflat
  · rw [hsnd]
    exact (List.nodup_flatten.mp (by rw [hflat]; exact List.nodup_range N)).2
  · intro i
    constructor
    · rintro ⟨p, hp, hi⟩
      have hmem : i ∈ (foldsFromSizes (kfoldSizes N k) 0).flatten := by
        rw [List.mem_flatten]
        refine ⟨p.2, ?_, hi⟩
        rw [← hsnd]
        exact List.mem_map_of_mem Prod.snd hp
      rw [hflat, List.mem_range] at hmem
      exact hmem
    · intro hiN
      have hmem : i ∈ (foldsFromSizes (kfoldSizes N k) 0).flatten := by
        rw [hflat, List.mem_range]
        exact hiN
      rw [List.mem_flatten] at hmem
      obtain ⟨l, hl, hil⟩ := hmem
      rw [← hsnd] at hl
      obtain ⟨p, hp, rfl⟩ := List.mem_map.mp hl
      exact ⟨p, hp, hil⟩

/-- Witness for C1 at N = 5, k = 2. -/
theorem kfold_partitions_witness :
    ∃ parts, kfoldSplit 2 5 = Except.ok parts ∧
      parts.length = 2 ∧
      (parts.map Prod.snd).flatten = List.range 5 ∧
      (parts.map Prod.snd).Pairwise List.Disjoint ∧
      ∀ i, (∃ p ∈ parts, i ∈ p.2) ↔ i < 5 :=
  kfold_partitions 5 2 (by decide) (by decide)

/-- C2 counterexample: the claim asserts `LeaveOneOut` works for every N ≥ 1,
but at N = 1 scikit-learn's `LeaveOneOut().split` raises `ValueError`
("Cannot perform LeaveOneOut with n_samples=1") instead of producing one
partition. -/
theorem loocv_single_row_counterexample :
    loocvSplit 1 = Except.error Err.invalidSampleCount := rfl

/-- C2 (amended to N ≥ 2): `LeaveOneOut` produces exactly N partitions;
partition i has test = {i} and train = all other indices in ascending order,
so the test sets concatenated in emission order are exactly 0..N-1. -/
theorem loocv_partitions (N : ℕ) (hN : 2 ≤ N) :
    ∃ parts, loocvSplit N = Except.ok parts ∧
      parts.length = N ∧
      parts.map Prod.snd = (List.range N).map (fun i => [i]) ∧
      parts.map Prod.fst = (List.range N).map (fun i => (List.range N).filter (fun j => j != i)) ∧
      (parts.map Prod.snd).flatten = List.range N := by
  have hok : loocvSplit N = Except.ok ((List.range N).map
      (fun i => ((List.range N).filter (fun j => j != i), [i]))) := by
    simp [loocvSplit, Nat.not_le.mpr (by omega : 1 < N)]
  refine ⟨_, hok, by simp, by simp [List.map_map], by simp [List.map_map], ?_⟩
  have hsnd : (((List.range N).map
      (fun i => ((List.range N).filter (fun j => j != i), [i]))).map Prod.snd)
      = (List.range N).map (fun i => [i]) := by
    simp [List.map_map]
  rw [hsnd, flatten_map_singleton]

/-- Witness for C2 (amended) at N = 3. -/
theorem loocv_partitions_witness :
    ∃ parts, loocvSplit 3 = Except.ok parts ∧
      parts.length = 3 ∧
      parts.map Prod.snd = (List.range 3).map (fun i => [i]) ∧
      parts.map Prod.fst = (List.range 3).map (fun i => (List.range 3).filter (fun j => j != i)) ∧
      (parts.map Prod.snd).flatten = List.range 3 :=
  loocv_partitions 3 (by decide)

/-- C7: constructing or running `KFold(k)` on N samples fails with the
`InvalidFoldCountError` (scikit-learn `ValueError`) whenever k < 2 or k > N. -/
theorem kfold_invalid_fold_count (k N : ℕ) (h : k < 2 ∨ N < k) :
    kfoldSplit k N = Except.error Err.invalidFoldCount := by
  rcases h with h | h
  · simp [kfoldSplit, h]
  · rcases Nat.lt_or_ge k 2 with h2 | h2
    · simp [kfoldSplit, h2]
    · simp [kfoldSplit, Nat.not_lt.mpr h2, h]

/-- Witness for C7 at (k, N) = (1, 5) and (25, 20). -/
theorem kfold_invalid_fold_count_witness :
    kfoldSplit 1 5 = Except.error Err.invalidFoldCount ∧
    kfoldSplit 25 20 = Except.error Err.invalidFoldCount :=
  ⟨kfold_invalid_fold_count 1 5 (by decide), kfold_invalid_fold_count 25 20 (by decide)⟩

/-- C5: the derived temper columns.  `temper_truncated` is the first two
characters of the temper, with the single-character code "O" passing through
unchanged (the notebook's guard `x != "O"` makes no difference to `x[:2]`
there); `temper_c0` is the first character of the temper; `temper_c1` is the
integer formed from the second character when the temper has one, else the
fixed default 1. -/
theorem temper_derived_columns :
    (∀ x : String, temper_truncated x = x.take 2) ∧
    temper_truncated "T614" = "T6" ∧ temper_truncated "O" = "O" ∧
    (∀ (x : String) (c : Char) (rest : List Char), x.toList = c :: rest →
      temper_c0 x = some c) ∧
    (∀ x : String, x.length ≤ 1 → temper_c1 x = some 1) ∧
    (∀ (x : String) (c0 c1 : Char) (rest : List Char), x.toList = c0 :: c1 :: rest →
      temper_c1 x = digitVal c1) ∧
    temper_c0 "T6" = some 'T' ∧ temper_c1 "T6" = some 6 ∧
    temper_c0 "O" = some 'O' ∧ temper_c1 "O" = some 1 := by
  refine ⟨?_, rfl, rfl, ?_, ?_, ?_, rfl, rfl, rfl, rfl⟩
  · intro x
    by_cases h : x = "O"
    · subst h; rfl
    · simp [temper_truncated, h]
  · intro x c rest h
    unfold temper_c0
    rw [h]
    rfl
  · intro x h
    unfold temper_c1
    rw [if_neg (by omega)]
  · intro x c0 c1 rest h
    have hgt : x.length > 1 := by
      have hx : x.length = x.toList.length := rfl
      rw [hx, h]
      simp
    unfold temper_c1
    rw [if_pos hgt, h]
    rfl

/-- Witness for C5 on the temper code "T614". -/
theorem temper_derived_columns_witness :
    temper_truncated "T614" = "T614".take 2 ∧
    temper_c0 "T614" = some 'T' ∧
    temper_c1 "T614" = digitVal '6' ∧
    temper_c1 "X" = some 1 :=
  ⟨temper_derived_columns.1 "T614",
   temper_derived_columns.2.2.2.1 "T614" 'T' ['6', '1', '4'] rfl,
   temper_derived_columns.2.2.2.2.2.1 "T614" 'T' '6' ['1', '4'] rfl,
   temper_derived_columns.2.2.2.2.1 "X" (by decide)⟩

/-- C9 counterexample: on the empty temper string the derived-column code does
not fail fast.  `temper_truncated` silently yields the empty string and
`temper_c1` silently yields the default 1; no `MalformedTemperError` exists
anywhere in the notebook. -/
theorem empty_temper_counterexample :
    temper_truncated "" = "" ∧ temper_c1 "" ≠ none := by
  exact ⟨rfl, by decide⟩

/-- C9 (amended): on a malformed (empty) temper string the notebook's derived
columns do not raise any temper-specific error: `temper_truncated` silently
produces the empty string, `temper_c1` silently produces the default 1, and
only `temper_c0` fails — with a generic Python `IndexError` from `x[0]`,
not a `MalformedTemperError`. -/
theorem empty_temper_silent :
    temper_truncated "" = "" ∧ temper_c1 "" = some 1 ∧ temper_c0 "" = none :=
  ⟨rfl, rfl, rfl⟩

/-- C8 counterexample: the claim says `score` fails whenever `y_true` has zero
variance, but scikit-learn's `r2_score` does not raise there: on the
zero-variance input y_true = [1, 1] with y_pred = [1, 2] it returns 0.0. -/
theorem r2_zero_variance_counterexample :
    r2_score [1, 1] [1, 2] = some 0 ∧ r2_score [1, 1] [1, 2] ≠ none := by
  have h : r2_score [1, 1] [1, 2] = some 0 := by
    unfold r2_score
    norm_num
  exact ⟨h, by rw [h]; exact fun hc => Option.noConfusion hc⟩

/-- C8 (amended): `score` is the coefficient of determination — whenever
`y_true` has nonzero variance it returns exactly the spec's standard R²
formula — but a zero-variance `y_true` does not fail: `r2_score` then
returns 0 when the predictions have nonzero residual and 1 when the
residual is zero. -/
theorem r2_score_spec (y_true y_pred : List ℚ)
    (hlen : y_true.length = y_pred.length) (h2 : 2 ≤ y_true.length) :
    ((y_true.map (fun a => (a - y_true.sum / y_true.length) ^ 2)).sum ≠ 0 →
      r2_score y_true y_pred = some (R2_standard y_true y_pred)) ∧
    ((y_true.map (fun a => (a - y_true.sum / y_true.length) ^ 2)).sum = 0 →
      (((List.zipWith (fun a b => (a - b) ^ 2) y_true y_pred).sum ≠ 0 →
          r2_score y_true y_pred = some 0) ∧
        ((List.zipWith (fun a b => (a - b) ^ 2) y_true y_pred).sum = 0 →
          r2_score y_true y_pred = some 1))) := by
  have heval : r2_score y_true y_pred =
      (if (y_true.map (fun a => (a - y_true.sum / y_true.length) ^ 2)).sum ≠ 0 ∧
          (List.zipWith (fun a b => (a - b) ^ 2) y_true y_pred).sum ≠ 0 then
        some (1 - (List.zipWith (fun a b => (a - b) ^ 2) y_true y_pred).sum /
          (y_true.map (fun a => (a - y_true.sum / y_true.length) ^ 2)).sum)
      else if (List.zipWith (fun a b => (a - b) ^ 2) y_true y_pred).sum ≠ 0 then some 0
      else some 1) := by
    unfold r2_score
    rw [if_neg (by omega), if_neg (by omega)]
  refine ⟨?_, fun hden => ⟨fun hnum => ?_, fun hnum => ?_⟩⟩
  · intro hden
    by_cases hnum : (List.zipWith (fun a b => (a - b) ^ 2) y_true y_pred).sum = 0
    · rw [heval, if_neg (fun hc => hc.2 hnum), if_neg (fun hc => hc hnum)]
      unfold R2_standard
      rw [hnum, zero_div, sub_zero]
    · rw [heval, if_pos ⟨hden, hnum⟩]
      rfl
  · rw [heval, if_neg (fun hc => hc.1 hden), if_pos hnum]
  · rw [heval, if_neg (fun hc => hc.1 hden), if_neg (fun hc => hc hnum)]

/-- Witness for C8 (amended) on y_true = [1, 2], y_pred = [1, 2] (nonzero
variance) and y_true = [1, 1] (zero variance). -/
theorem r2_score_spec_witness :
    r2_score [1, 2] [1, 2] = some (R2_standard [1, 2] [1, 2]) ∧
    r2_score [1, 1] [1, 2] = some 0 ∧
    r2_score [1, 1] [1, 1] = some 1 :=
  ⟨(r2_score_spec [1, 2] [1, 2] rfl (by decide)).1 (by norm_num),
   ((r2_score_spec [1, 1] [1, 2] rfl (by decide)).2 (by norm_num)).1 (by norm_num),
   ((r2_score_spec [1, 1] [1, 1] rfl (by decide)).2 (by norm_num)).2 (by norm_num)⟩

/-! Helper lemmas about the embedded monadic plumbing. -/

/-- Binding a successful `Except` computation applies the continuation. -/
theorem except_bind_ok {ε α β : Type} (a : α) (f : α → Except ε β) :
    (Except.ok a >>= f : Except ε β) = f a := rfl

/-- Binding a failed `Except` computation propagates the error. -/
theorem except_bind_err {ε α β : Type} (e : ε) (f : α → Except ε β) :
    (Except.error e >>= f : Except ε β) = Except.error e := rfl

/-- `pure` in the `Except` monad is `Except.ok`. -/
theorem except_pure {ε α : Type} (a : α) : (pure a : Except ε α) = Except.ok a := rfl

/-- The appending pair-accumulator loop of `cross_validation` collects exactly
the per-partition lists, in emission order. -/
theorem foldl_append_pair {α β γ : Type} (l : List α) (f : α → List β) (g : α → List γ) :
    ∀ (a : List (List β)) (b : List (List γ)),
      l.foldl (fun acc p => (acc.1 ++ [f p], acc.2 ++ [g p])) (a, b)
        = (a ++ l.map f, b ++ l.map g) := by
  induction l with
  | nil => intro a b; simp
  | cons x t ih =>
    intro a b
    rw [List.foldl_cons, ih (a ++ [f x]) (b ++ [g x])]
    simp

/-- Flattening singleton images gives the image. -/
theorem flatten_map_singleton_comp {α β : Type} (l : List α) (g : α → β) :
    (l.map (fun a => [g a])).flatten = l.map g := by
  induction l with
  | nil => rfl
  | cons a t ih => simp [ih]

/-- Reading every position of a list, in order, gives the list back. -/
theorem map_getD_range {α : Type} (l : List α) (d : α) :
    (List.range l.length).map (fun i => l.getD i d) = l := by
  apply List.ext_getElem
  · simp
  · intro i h1 h2
    simp [List.getD_eq_getElem?_getD, List.getElem?_eq_getElem h2]

/-- A successfully extracted target column has one value per row. -/
theorem numCol_length (df : DataFrame) (c : String) (ys : List ℚ)
    (h : numCol df c = Except.ok ys) : ys.length = df.nRows := by
  unfold numCol at h
  by_cases hc : df.colNames.contains c
  · rw [if_pos hc] at h
    by_cases hall : (df.rows.map (fun r => r.getD (df.colNames.indexOf c) (Value.num 0))).all Value.isNum
    · rw [if_pos hall] at h
      cases h
      simp [DataFrame.nRows]
    · rw [if_neg hall] at h
      exact absurd h (by simp)
  · rw [if_neg hc] at h
    exact absurd h (by simp)

/-- Column selection keeps the row count. -/
theorem locCols_nRows (df : DataFrame) (cols : List String) (sub : DataFrame)
    (h : locCols df cols = Except.ok sub) : sub.nRows = df.nRows := by
  unfold locCols at h
  by_cases hall : cols.all (fun c => df.colNames.contains c)
  · rw [if_pos hall] at h
    cases h
    simp [DataFrame.nRows]
  · rw [if_neg hall] at h
    exact absurd h (by simp)

/-- One-hot encoding keeps the row count. -/
theorem getDummies_nRows (df : DataFrame) : (getDummies df).nRows = df.nRows := by
  simp [getDummies, DataFrame.nRows]

/-- C3: for every record set and every registered cross-validation strategy,
`cross_validation` returns (y_true, y_pred) concatenated across the
splitter's partitions in emission order, each partition contributing its test
rows in the partition's internal test-row order — exactly the per-fold
slices, never re-sorted.  In particular, for `"loocv"` the concatenated
y_true equals the original target column in original row order. -/
theorem cross_validation_ordering
    (R : Regressor) (df : DataFrame) (x_cols : List String) (y_col : String)
    (rs : ℤ) (v : String) (sub : DataFrame)
    (split : ℕ → Except Err (List (List ℕ × List ℕ)))
    (parts : List (List ℕ × List ℕ)) (ys : List ℚ)
    (hsub : locCols df x_cols = Except.ok sub)
    (hv : lookupValidator v = Except.ok split)
    (hsplit : split (getDummies sub).nRows = Except.ok parts)
    (hys : numCol df y_col = Except.ok ys) :
    cross_validation R df x_cols y_col rs v =
      Except.ok
        ((parts.map (fun p => p.2.map (fun i => ys.getD i 0))).flatten,
         (parts.map (fun p => p.2.map (fun i =>
           R rs (p.1.map (fun j => (matrixOf (getDummies sub)).getD j []))
             (p.1.map (fun j => ys.getD j 0))
             ((matrixOf (getDummies sub)).getD i [])))).flatten) ∧
      (v = "loocv" →
        (parts.map (fun p => p.2.map (fun i => ys.getD i 0))).flatten = ys) := by
  have hvi : ¬ v = "insample" := by
    intro he
    rw [he] at hv
    simp [lookupValidator] at hv
  constructor
  · simp only [cross_validation, hsub, except_bind_ok, hvi, if_false, hv, hsplit, hys,
      except_pure, foldl_append_pair, List.nil_append]
  · intro hveq
    subst hveq
    have hs : loocvSplit = split := by
      simp [lookupValidator] at hv
      exact hv
    rw [← hs] at hsplit
    unfold loocvSplit at hsplit
    by_cases hN : (getDummies sub).nRows ≤ 1
    · rw [if_pos hN] at hsplit
      exact absurd hsplit (by simp)
    · rw [if_neg hN] at hsplit
      have hp := Except.ok.inj hsplit
      subst hp
      rw [List.map_map]
      have hcomp : ((fun p : List ℕ × List ℕ => p.2.map (fun i => ys.getD i 0)) ∘
          (fun i => ((List.range (getDummies sub).nRows).filter (fun j => j != i), [i])))
          = fun i => [ys.getD i 0] := by
        funext i
        simp
      rw [hcomp, flatten_map_singleton_comp]
      have hlen : ys.length = (getDummies sub).nRows := by
        rw [numCol_length df y_col ys hys, ← locCols_nRows df x_cols sub hsub,
          ← getDummies_nRows sub]
      rw [← hlen]
      exact map_getD_range ys 0

/-- Witness for C3: LeaveOneOut over the three-row table, with the zero
regressor; the concatenated y_true equals the original target column. -/
theorem cross_validation_ordering_witness :
    cross_validation zeroRegressor dfW3 ["x"] "y" 1234 "loocv" =
      Except.ok
        ((partsW3.map (fun p => p.2.map (fun i => ysW3.getD i 0))).flatten,
         (partsW3.map (fun p => p.2.map (fun i =>
           zeroRegressor 1234 (p.1.map (fun j => (matrixOf (getDummies subW3)).getD j []))
             (p.1.map (fun j => ysW3.getD j 0))
             ((matrixOf (getDummies subW3)).getD i [])))).flatten) ∧
      ("loocv" = "loocv" →
        (partsW3.map (fun p => p.2.map (fun i => ysW3.getD i 0))).flatten = ysW3) :=
  cross_validation_ordering zeroRegressor dfW3 ["x"] "y" 1234 "loocv" subW3 loocvSplit
    partsW3 ysW3 rfl rfl rfl rfl

/-- C4: `calc_R2s` runs the evaluation core once per registered strategy —
insample, loocv, 5foldcv, 15foldcv, 20foldcv — and returns the mapping with
exactly those five entries, each display name mapped to the `r2_score` of
that strategy's (y_true, y_pred) pair, in the dict's insertion order. -/
theorem calc_R2s_entries
    (R : Regressor) (df : DataFrame) (x_cols : List String) (y_col : String)
    (p1 p2 p3 p4 p5 : List ℚ × List ℚ)
    (h1 : cross_validation R df x_cols y_col 1234 "insample" = Except.ok p1)
    (h2 : cross_validation R df x_cols y_col 1234 "loocv" = Except.ok p2)
    (h3 : cross_validation R df x_cols y_col 1234 "5foldcv" = Except.ok p3)
    (h4 : cross_validation R df x_cols y_col 1234 "15foldcv" = Except.ok p4)
    (h5 : cross_validation R df x_cols y_col 1234 "20foldcv" = Except.ok p5) :
    calc_R2s R df x_cols y_col = Except.ok
      [("In Sample", r2_score p1.1 p1.2),
       ("Leave One Out CV", r2_score p2.1 p2.2),
       ("5 Fold CV", r2_score p3.1 p3.2),
       ("15 Fold CV", r2_score p4.1 p4.2),
       ("20 Fold CV", r2_score p5.1 p5.2)] := by
  unfold calc_R2s validators_table
  simp [List.foldlM_cons, List.foldlM_nil, h1, h2, h3, h4, h5, except_bind_ok, except_pure]

/-- Witness for C4: on the twenty-row table with the zero regressor, every
strategy succeeds and the table has exactly the five display names. -/
theorem calc_R2s_entries_witness :
    calc_R2s zeroRegressor dfW ["x"] "y" = Except.ok
      [("In Sample", r2_score ysW zerosW),
       ("Leave One Out CV", r2_score ysW zerosW),
       ("5 Fold CV", r2_score ysW zerosW),
       ("15 Fold CV", r2_score ysW zerosW),
       ("20 Fold CV", r2_score ysW zerosW)] :=
  calc_R2s_entries zeroRegressor dfW ["x"] "y" (ysW, zerosW) (ysW, zerosW) (ysW, zerosW)
    (ysW, zerosW) (ysW, zerosW) rfl rfl rfl rfl rfl

/-- C6: when a requested modeling column is absent from the records, the
evaluation call fails with the `ColumnNotFoundError` (pandas `KeyError` at
`data.loc`), and the caller's DataFrame object is left unchanged. -/
theorem missing_column_error
    (R : Regressor) (df : DataFrame) (x_cols : List String) (y_col : String)
    (rs : ℤ) (v : String) (c : String)
    (hc : c ∈ x_cols) (hmiss : c ∉ df.colNames) :
    cross_validation R df x_cols y_col rs v = Except.error Err.columnNotFound ∧
    (cross_validationS R df x_cols y_col rs v).2 = df := by
  have herr : locCols df x_cols = Except.error Err.columnNotFound := by
    unfold locCols
    rw [if_neg]
    intro hall
    have hcon := List.all_eq_true.mp hall c hc
    exact hmiss (List.elem_iff.mp hcon)
  constructor
  · simp only [cross_validation, herr, except_bind_err]
  · simp only [cross_validationS, locColsS, herr]

/-- Witness for C6: requesting the absent column "bogus" on the three-row
table errors out and leaves the table untouched. -/
theorem missing_column_error_witness :
    cross_validation zeroRegressor dfW3 ["bogus"] "y" 1234 "loocv" =
        Except.error Err.columnNotFound ∧
    (cross_validationS zeroRegressor dfW3 ["bogus"] "y" 1234 "loocv").2 = dfW3 :=
  missing_column_error zeroRegressor dfW3 ["bogus"] "y" 1234 "loocv" "bogus"
    (by decide) (by decide)

/-- C10: `cross_validation` never mutates its input table — the threaded
DataFrame that comes back is the one that went in, whether the call succeeds
or fails, and the threaded result agrees with the plain function. -/
theorem cross_validation_frame (R : Regressor) (df : DataFrame) (x_cols : List String)
    (y_col : String) (rs : ℤ) (v : String) :
    (cross_validationS R df x_cols y_col rs v).2 = df ∧
    (cross_validationS R df x_cols y_col rs v).1 = cross_validation R df x_cols y_col rs v := by
  cases hsub : locCols df x_cols with
  | error e =>
    constructor <;>
      simp [cross_validationS, cross_validation, locColsS, hsub, except_bind_err]
  | ok sub =>
    by_cases hv : v = "insample"
    · subst hv
      cases hy : numCol df y_col with
      | error e =>
        constructor <;>
          simp [cross_validationS, cross_validation, locColsS, numColS, hsub, hy,
            except_bind_ok, except_bind_err]
      | ok yt =>
        constructor <;>
          simp [cross_validationS, cross_validation, locColsS, numColS, hsub, hy,
            except_bind_ok, except_pure]
    · cases hl : lookupValidator v with
      | error e =>
        constructor <;>
          simp [cross_validationS, cross_validation, locColsS, hsub, hv, hl,
            except_bind_ok, except_bind_err]
      | ok split =>
        cases hs : split (getDummies sub).nRows with
        | error e =>
          constructor <;>
            simp [cross_validationS, cross_validation, locColsS, hsub, hv, hl, hs,
              except_bind_ok, except_bind_err]
        | ok parts =>
          cases hy : numCol df y_col with
          | error e =>
            constructor <;>
              simp [cross_validationS, cross_validation, locColsS, numColS, hsub, hv, hl, hs, hy,
                except_bind_ok, except_bind_err]
          | ok ys =>
            constructor <;>
              simp [cross_validationS, cross_validation, locColsS, numColS, hsub, hv, hl, hs, hy,
                except_bind_ok, except_pure]
